import Mathlib

/-!
Shallow embedding of `src/oid4vci/oid4vci/v1_0/oid4vci_server.py` — the
admin status server of the oid4vci plugin.  Pure data is embedded as Lean
structures; the mutable attributes of `Oid4vciServer` (`app`, `site`,
`context`) become explicit fields of a state record, mutating methods
become state transformers, and Python exceptions become `Except` errors.
The `app._state` dict is represented by its two keys, `ready` and `alive`.
Route/middleware registration, CORS wiring and OpenAPI setup in
`make_application` are configuration side concerns with no bearing on the
state claims and are not represented beyond the `_state` initialisation.
-/

namespace Oid4vci

/-- The portion of `app._state` the server reads and writes: the two
boolean flags set in `make_application` lines 169-170. -/
structure AppState where
  ready : Bool
  alive : Bool
deriving DecidableEq, Repr

/-- A timing-statistics collector (aries `Collector`), abstracted to the
data the handler touches: some recorded statistics that `reset` clears. -/
structure Collector where
  stats : List (String × Nat)
deriving DecidableEq, Repr

/-- `Collector.reset()` discards recorded statistics. -/
def Collector.reset (_c : Collector) : Collector := ⟨[]⟩

/-- The root profile held by the server; opaque to every claim. -/
structure Profile where
  label : String
deriving DecidableEq, Repr

/-- The injection context, abstracted to the one binding the embedded code
consumes: an optionally configured `Collector`. -/
structure InjectionContext where
  collector : Option Collector
deriving DecidableEq, Repr

/-- `context.inject_or(Collector)`: the configured collector, if any. -/
def InjectionContext.inject_or (ctx : InjectionContext) : Option Collector :=
  ctx.collector

/-- Python exceptions raised by the embedded code. -/
inductive PyError where
  | attributeError (msg : String)
  | adminSetupError (msg : String)
deriving DecidableEq, Repr

/-- An HTTP response: status code, optional JSON object body (the bodies
produced here only hold boolean fields), optional reason string. -/
structure HttpResponse where
  status : Nat
  body : Option (List (String × Bool))
  reason : Option String
deriving DecidableEq, Repr

/-- `web.json_response(obj)`: a 200 response carrying a JSON body. -/
def json_response (body : List (String × Bool)) : HttpResponse :=
  { status := 200, body := some body, reason := none }

/-- `web.HTTPUnauthorized()` rendered as a response: status 401. -/
def HTTPUnauthorized : HttpResponse :=
  { status := 401, body := none, reason := none }

/-- `web.HTTPServiceUnavailable(reason=...)` rendered as a response:
status 503 with the given reason. -/
def HTTPServiceUnavailable (reason : String) : HttpResponse :=
  { status := 503, body := none, reason := some reason }

/-- An incoming HTTP request as the middleware sees it. -/
structure Request where
  method : String
  path : String
  headers : List (String × String)
deriving DecidableEq, Repr

/-- `request.headers.get(name)`: first matching header value, if any. -/
def Request.header (req : Request) (name : String) : Option String :=
  (req.headers.find? (fun kv => kv.fst == name)).map Prod.snd

/-- Python `x.encode()` on an optional string: `None.encode()` raises
`AttributeError`; on a string it yields its byte encoding, represented by
the string itself (byte-for-byte equality of UTF-8 encodings coincides
with string equality). -/
def pyEncode : Option String → Except PyError String
  | none => Except.error (PyError.attributeError
      "NoneType object has no attribute encode")
  | some s => Except.ok s

/-- `hmac.compare_digest`: constant-time byte-for-byte equality; as a
value it is plain equality of the encodings. -/
def compare_digest (a b : String) : Bool := a == b

/-- The `check_token` middleware (lines 90-109): reads the `x-api-key`
header, sets `admin_api_key = None`, compares the two encodings, and lets
the request through on a valid key or an `OPTIONS` method, otherwise
raises `HTTPUnauthorized`.  Argument evaluation order of
`compare_digest(admin_api_key.encode(), header_admin_api_key.encode())`
is left to right, so `admin_api_key.encode()` is attempted first. -/
def check_token (request : Request) (handler : Request → HttpResponse) :
    Except PyError HttpResponse :=
  let header_admin_api_key := request.header "x-api-key"
  let admin_api_key : Option String := none
  match pyEncode admin_api_key with
  | Except.error e => Except.error e
  | Except.ok adminBytes =>
    match pyEncode header_admin_api_key with
    | Except.error e => Except.error e
    | Except.ok headerBytes =>
      let valid_key := compare_digest adminBytes headerBytes
      if valid_key || request.method == "OPTIONS" then
        Except.ok (handler request)
      else
        Except.ok HTTPUnauthorized

/-- The server state: the mutable attributes set in `__init__` together
with the construction-time configuration. -/
structure Oid4vciServer where
  app : Option AppState
  host : String
  port : Nat
  context : InjectionContext
  profile : Profile
  site : Option Unit
deriving DecidableEq, Repr

/-- `Oid4vciServer.__init__` (lines 54-73): `app` and `site` start as
`None`. -/
def Oid4vciServer.init (host : String) (port : Nat)
    (context : InjectionContext) (root_profile : Profile) : Oid4vciServer :=
  { app := none
    host := host
    port := port
    context := context
    profile := root_profile
    site := none }

/-- `make_application` restricted to the `_state` it establishes: both
flags start false (lines 169-170). -/
def make_application : AppState := { ready := false, alive := false }

/-- `start` (lines 174-196): builds the application, creates the site,
then attempts the bind.  `bindOk` stands for whether `site.start()`
succeeds or raises `OSError`.  The result pairs the post-call state (the
assignments to `self.app` and `self.site` happen before the `try`, so
they persist even when the bind fails) with the raised error, if any. -/
def Oid4vciServer.start (s : Oid4vciServer) (bindOk : Bool) :
    Oid4vciServer × Option PyError :=
  let app := make_application
  let s1 := { s with app := some app, site := some () }
  if bindOk then
    ({ s1 with app := some { app with ready := true, alive := true } }, none)
  else
    (s1, some (PyError.adminSetupError
      ("Unable to start webserver with host " ++ s.host ++
       " and port " ++ toString s.port)))

/-- `stop` (lines 198-203): writes `self.app._state["ready"] = False`
(raising `AttributeError` when `self.app` is `None`), then closes and
clears the site when one exists. -/
def Oid4vciServer.stop (s : Oid4vciServer) : Except PyError Oid4vciServer :=
  match s.app with
  | none => Except.error (PyError.attributeError
      "NoneType object has no attribute the dict of state")
  | some app =>
    let s1 := { s with app := some { app with ready := false } }
    match s1.site with
    | some _ => Except.ok { s1 with site := none }
    | none => Except.ok s1

/-- `notify_fatal_error` (lines 262-266): sets both flags false; touches
nothing else.  Raises `AttributeError` when `self.app` is `None`. -/
def Oid4vciServer.notify_fatal_error (s : Oid4vciServer) :
    Except PyError Oid4vciServer :=
  match s.app with
  | none => Except.error (PyError.attributeError
      "NoneType object has no attribute the dict of state")
  | some app =>
    Except.ok { s with app := some { app with ready := false, alive := false } }

/-- `liveliness_handler` (lines 226-242): 200 with the `alive` flag when
it is true, else 503 reason `Service not available`. -/
def Oid4vciServer.liveliness_handler (s : Oid4vciServer) :
    Except PyError HttpResponse :=
  match s.app with
  | none => Except.error (PyError.attributeError
      "NoneType object has no attribute the dict of state")
  | some app =>
    let app_live := app.alive
    if app_live then
      Except.ok (json_response [("alive", app_live)])
    else
      Except.ok (HTTPServiceUnavailable "Service not available")

/-- `readiness_handler` (lines 244-260): 200 when `ready AND alive`, else
503 reason `Service not ready`. -/
def Oid4vciServer.readiness_handler (s : Oid4vciServer) :
    Except PyError HttpResponse :=
  match s.app with
  | none => Except.error (PyError.attributeError
      "NoneType object has no attribute the dict of state")
  | some app =>
    let app_ready := app.ready && app.alive
    if app_ready then
      Except.ok (json_response [("ready", app_ready)])
    else
      Except.ok (HTTPServiceUnavailable "Service not ready")

/-- `status_reset_handler` (lines 205-220): resets the injected collector
when one is configured and returns `200` with an empty JSON object in
every case. -/
def Oid4vciServer.status_reset_handler (s : Oid4vciServer) :
    Oid4vciServer × HttpResponse :=
  match s.context.inject_or with
  | some collector =>
    ({ s with context := { s.context with collector := some collector.reset } },
      json_response [])
  | none => (s, json_response [])

/-- The concrete server state reached by constructing a server, starting
it successfully, and stopping it; used to exhibit that `stop` leaves
`alive` set. -/
def stoppedAfterStart : Oid4vciServer :=
  { app := some { ready := false, alive := true }
    host := "0.0.0.0"
    port := 8080
    context := { collector := none }
    profile := { label := "" }
    site := none }

/-- Claim C1 divergence: for every request whose method is not `OPTIONS`,
`check_token` raises `AttributeError` (because `admin_api_key` is the
constant `None` and `None.encode()` is evaluated first), so it never
produces `401` on a key mismatch and never reaches the handler on a
match — contrary to the claimed `401`-iff-mismatch behaviour. -/
theorem check_token_non_options_raises (req : Request)
    (handler : Request → HttpResponse) (_hm : req.method ≠ "OPTIONS") :
    check_token req handler =
      Except.error (PyError.attributeError
        "NoneType object has no attribute encode") := rfl

/-- Witness for `check_token_non_options_raises`: a `GET /status/live`
request carrying an `x-api-key` header still raises. -/
theorem check_token_non_options_raises_witness :
    check_token
        { method := "GET", path := "/status/live",
          headers := [("x-api-key", "secret")] }
        (fun _ => json_response []) =
      Except.error (PyError.attributeError
        "NoneType object has no attribute encode") :=
  check_token_non_options_raises
    { method := "GET", path := "/status/live",
      headers := [("x-api-key", "secret")] }
    (fun _ => json_response []) (by decide)

/-- Claim C2 divergence: an `OPTIONS` request is NOT allowed through:
`check_token` raises `AttributeError` before the `OPTIONS` bypass in the
`if` condition is ever evaluated, for any path and any header contents. -/
theorem check_token_options_raises (path : String)
    (headers : List (String × String)) (handler : Request → HttpResponse) :
    check_token { method := "OPTIONS", path := path, headers := headers }
        handler =
      Except.error (PyError.attributeError
        "NoneType object has no attribute encode") := rfl

/-- Claim C3 counterexample: construct a server, start it successfully,
then stop it.  The resulting state still has `alive = true`, and
`GET /status/live` answers `200` with body `alive: true`, not `503`. -/
theorem stop_leaves_alive_counterexample :
    Oid4vciServer.stop
        ((Oid4vciServer.start
            (Oid4vciServer.init "0.0.0.0" 8080 { collector := none }
              { label := "" }) true).1) =
      Except.ok stoppedAfterStart
  ∧ stoppedAfterStart.app = some { ready := false, alive := true }
  ∧ stoppedAfterStart.liveliness_handler =
      Except.ok (json_response [("alive", true)]) :=
  ⟨rfl, rfl, rfl⟩

/-- Claim C3 amended: after `stop()` on a successfully started server,
`ready` is false and `GET /status/ready` answers `503` with reason
`Service not ready`, but `alive` is left unchanged at true, so
`GET /status/live` still answers `200` with body `alive: true`. -/
theorem stop_after_start_spec (s : Oid4vciServer) :
    Oid4vciServer.stop ((s.start true).1) =
      Except.ok { s with app := some { ready := false, alive := true },
                         site := none }
  ∧ Oid4vciServer.readiness_handler
      { s with app := some { ready := false, alive := true }, site := none } =
      Except.ok (HTTPServiceUnavailable "Service not ready")
  ∧ Oid4vciServer.liveliness_handler
      { s with app := some { ready := false, alive := true }, site := none } =
      Except.ok (json_response [("alive", true)]) :=
  ⟨rfl, rfl, rfl⟩

/-- Claim C4: `start` with a successful bind sets both flags true (and
installs the site); `start` with a failing bind raises `AdminSetupError`
naming the host and port and leaves both flags false. -/
theorem start_success_and_failure (s : Oid4vciServer) :
    ((s.start true).2 = none
      ∧ (s.start true).1.app = some { ready := true, alive := true }
      ∧ (s.start true).1.site = some ())
  ∧ ((s.start false).2 = some (PyError.adminSetupError
        ("Unable to start webserver with host " ++ s.host ++
         " and port " ++ toString s.port))
      ∧ (s.start false).1.app = some { ready := false, alive := false }) :=
  ⟨⟨rfl, rfl, rfl⟩, rfl, rfl⟩

/-- Claim C5: the readiness handler answers `200` with body `ready: true`
exactly when both flags are true, and otherwise answers `503` with reason
`Service not ready`. -/
theorem readiness_handler_iff (s : Oid4vciServer) (a : AppState) :
    (Oid4vciServer.readiness_handler { s with app := some a } =
        Except.ok (json_response [("ready", true)])
      ↔ (a.ready = true ∧ a.alive = true))
  ∧ (Oid4vciServer.readiness_handler { s with app := some a } =
        Except.ok (HTTPServiceUnavailable "Service not ready")
      ↔ ¬(a.ready = true ∧ a.alive = true)) := by
  obtain ⟨r, al⟩ := a
  cases r <;> cases al <;>
    simp [Oid4vciServer.readiness_handler, json_response,
      HTTPServiceUnavailable]

/-- Claim C6: the liveliness handler answers `200` with body `alive: true`
exactly when the `alive` flag is true, otherwise `503` with reason
`Service not available`; its result never depends on the `ready` flag. -/
theorem liveliness_handler_iff (s : Oid4vciServer) (a : AppState)
    (r1 r2 al : Bool) :
    (Oid4vciServer.liveliness_handler { s with app := some a } =
        Except.ok (json_response [("alive", true)])
      ↔ a.alive = true)
  ∧ (Oid4vciServer.liveliness_handler { s with app := some a } =
        Except.ok (HTTPServiceUnavailable "Service not available")
      ↔ a.alive = false)
  ∧ Oid4vciServer.liveliness_handler
        { s with app := some { ready := r1, alive := al } } =
      Oid4vciServer.liveliness_handler
        { s with app := some { ready := r2, alive := al } } := by
  refine ⟨?_, ?_, ?_⟩
  · obtain ⟨r, alv⟩ := a
    cases r <;> cases alv <;>
      simp [Oid4vciServer.liveliness_handler, json_response,
        HTTPServiceUnavailable]
  · obtain ⟨r, alv⟩ := a
    cases r <;> cases alv <;>
      simp [Oid4vciServer.liveliness_handler, json_response,
        HTTPServiceUnavailable]
  · cases al <;> rfl

/-- Claim C7: `notify_fatal_error` sets both flags false and changes
nothing else — in particular `site`, `host`, `port`, `context` and
`profile` are untouched (the result is the record update of `app` alone)
— and both health handlers then answer `503`. -/
theorem notify_fatal_error_spec (s : Oid4vciServer) (a : AppState) :
    Oid4vciServer.notify_fatal_error { s with app := some a } =
      Except.ok { s with app := some { ready := false, alive := false } }
  ∧ ({ s with app := some { ready := false, alive := false } :
        Oid4vciServer }).site = s.site
  ∧ Oid4vciServer.liveliness_handler
      { s with app := some { ready := false, alive := false } } =
      Except.ok (HTTPServiceUnavailable "Service not available")
  ∧ Oid4vciServer.readiness_handler
      { s with app := some { ready := false, alive := false } } =
      Except.ok (HTTPServiceUnavailable "Service not ready") :=
  ⟨rfl, rfl, rfl, rfl⟩

/-- Claim C8: `stop` on a server holding an application yields the state
with `ready` cleared and the site closed, and a second `stop` on that
state raises no error and returns it unchanged. -/
theorem stop_idempotent (s : Oid4vciServer) (a : AppState) :
    Oid4vciServer.stop { s with app := some a } =
      Except.ok { s with app := some { a with ready := false }, site := none }
  ∧ Oid4vciServer.stop
        { s with app := some { a with ready := false }, site := none } =
      Except.ok { s with app := some { a with ready := false },
                         site := none } := by
  obtain ⟨app, host, port, ctx, prof, site⟩ := s
  cases site <;> exact ⟨rfl, rfl⟩

/-- Claim C9: the status-reset handler answers `200 {}` whether or not a
collector is configured; when one is configured it is reset first, and
when none is configured the state is unchanged. -/
theorem status_reset_handler_spec (s : Oid4vciServer) (c : Collector) :
    (s.status_reset_handler).2 = json_response []
  ∧ ({ s with context := { collector := some c } :
        Oid4vciServer }).status_reset_handler =
      ({ s with context := { collector := some (Collector.reset c) } },
        json_response [])
  ∧ ({ s with context := { collector := none } :
        Oid4vciServer }).status_reset_handler =
      ({ s with context := { collector := none } }, json_response []) := by
  refine ⟨?_, rfl, rfl⟩
  cases hs : s.context.collector <;>
    simp [Oid4vciServer.status_reset_handler, InjectionContext.inject_or, hs]

/-- Claim C10: `stop` on a freshly constructed, never-started server (so
`app` is still `None`) raises `AttributeError` instead of being a no-op,
because `stop` writes to the application state dict before checking
`site`. -/
theorem stop_before_start_raises (host : String) (port : Nat)
    (ctx : InjectionContext) (prof : Profile) :
    Oid4vciServer.stop (Oid4vciServer.init host port ctx prof) =
      Except.error (PyError.attributeError
        "NoneType object has no attribute the dict of state") := rfl

end Oid4vci
